import Mathlib

/-!
Verification development for the V2MIDI library (versioduo/V2MIDI).

The definitions below are a shallow embedding of the C++ sources:
  - src/MIDI/Packet.h        : the USB-MIDI 4-byte packet codec
  - src/PortPacket.cpp       : the legacy Packet::set(channel, type, ...) overload
  - src/MIDI/SerialDevice.h  : the serial byte-stream parser
  - src/MIDI/CCHighResolution.h : the 14-bit controller state machine
  - src/MIDI/Port.h          : SysEx reassembly and packet dispatch
  - src/MIDI/File.h          : SMF variable-length integers and header parsing

Machine integers are modelled as Nat (with explicit masks/mod where the C++
semantics truncates); fallible operations return Option or an explicit result
type; reaching std::abort() is modelled by a dedicated constructor.
-/

namespace V2MIDI

/-- Interpretation of a Nat as the two's-complement value of its low 16 bits,
modelling a C++ conversion to int16_t. -/
def toInt16 (n : Nat) : Int :=
  if n % 65536 < 32768 then (n % 65536 : Int) else (n % 65536 : Int) - 65536

/-- Truncation of an integer to its low 16 bits, modelling a C++ conversion to
uint16_t. -/
def toUInt16 (i : Int) : Nat :=
  (i.emod 65536).toNat

/-- The USB-MIDI packet, four bytes (src/MIDI/Packet.h `_data[4]`):
d0 = cable number (high nibble) and code index number (low nibble),
d1 = status byte, d2/d3 = data bytes. -/
structure Packet where
  d0 : Nat
  d1 : Nat
  d2 : Nat
  d3 : Nat
deriving Repr, DecidableEq

namespace Packet

/-- Packet::getStatus: remove the channel number; System messages (0xf0
nibble) carry their message type in the full byte. -/
def getStatus (b : Nat) : Nat :=
  if b &&& 0xf0 ≠ 0xf0 then b &&& 0xf0 else b

/-- Packet::getType. -/
def getType (p : Packet) : Nat :=
  getStatus p.d1

/-- Packet::getChannel. -/
def getChannel (p : Packet) : Nat :=
  p.d1 &&& 0x0f

/-- Packet::getNote. -/
def getNote (p : Packet) : Nat := p.d2

/-- Packet::getNoteVelocity. -/
def getNoteVelocity (p : Packet) : Nat := p.d3

/-- Packet::getAftertouchNote. -/
def getAftertouchNote (p : Packet) : Nat := p.d2

/-- Packet::getAftertouch. -/
def getAftertouch (p : Packet) : Nat := p.d3

/-- Packet::getController. -/
def getController (p : Packet) : Nat := p.d2

/-- Packet::getControllerValue. -/
def getControllerValue (p : Packet) : Nat := p.d3

/-- Packet::getProgram. -/
def getProgram (p : Packet) : Nat := p.d2

/-- Packet::getAftertouchChannel. -/
def getAftertouchChannel (p : Packet) : Nat := p.d2

/-- Packet::getSongPosition. -/
def getSongPosition (p : Packet) : Nat :=
  p.d3 <<< 7 ||| p.d2

/-- Packet::getSongSelect. -/
def getSongSelect (p : Packet) : Nat := p.d2

/-- Packet::getPitchBend from src/MIDI/Packet.h: the 14-bit wire value is cast
to int16_t, 8192 is subtracted in int, and the result is converted to the
declared uint16_t return type (so a negative difference wraps modulo 2^16). -/
def getPitchBend (p : Packet) : Nat :=
  toUInt16 (toInt16 (p.d3 <<< 7 ||| p.d2) - 8192)

/-- Result of the encoding operations of src/MIDI/Packet.h. The `abort`
constructor models the `default: std::abort();` branches. -/
inductive SetResult where
  | ok (p : Packet)
  | abort
deriving Repr, DecidableEq

/-- Packet::set(Status type, uint8_t channel, uint8_t data1, uint8_t data2)
from src/MIDI/Packet.h lines 201-241: clears the CIN nibble, writes the CIN of
the channel-voice status, status|channel, and the data bytes; every other
status reaches std::abort(). -/
def set (p : Packet) (type channel data1 data2 : Nat) : SetResult :=
  let p0 := p.d0 &&& 0xf0
  match type with
  | 0x80 => .ok ⟨p0 ||| 8, type ||| channel, data1, data2⟩
  | 0x90 => .ok ⟨p0 ||| 9, type ||| channel, data1, data2⟩
  | 0xa0 => .ok ⟨p0 ||| 10, type ||| channel, data1, data2⟩
  | 0xb0 => .ok ⟨p0 ||| 11, type ||| channel, data1, data2⟩
  | 0xc0 => .ok ⟨p0 ||| 12, type ||| channel, data1, data2⟩
  | 0xd0 => .ok ⟨p0 ||| 13, type ||| channel, data1, data2⟩
  | 0xe0 => .ok ⟨p0 ||| 14, type ||| channel, data1, data2⟩
  | _ => .abort

/-- Packet::setSystem(Status type, uint8_t data1, uint8_t data2) from
src/MIDI/Packet.h lines 243-274; unsupported statuses reach std::abort(). -/
def setSystem (p : Packet) (type data1 data2 : Nat) : SetResult :=
  let p0 := p.d0 &&& 0xf0
  match type with
  | 0xf3 => .ok ⟨p0 ||| 2, type, data1, data2⟩
  | 0xf1 => .ok ⟨p0 ||| 2, type, data1, data2⟩
  | 0xf2 => .ok ⟨p0 ||| 3, type, data1, data2⟩
  | 0xf6 => .ok ⟨p0 ||| 15, type, data1, data2⟩
  | 0xf8 => .ok ⟨p0 ||| 15, type, data1, data2⟩
  | 0xfa => .ok ⟨p0 ||| 15, type, data1, data2⟩
  | 0xfb => .ok ⟨p0 ||| 15, type, data1, data2⟩
  | 0xfc => .ok ⟨p0 ||| 15, type, data1, data2⟩
  | 0xfe => .ok ⟨p0 ||| 15, type, data1, data2⟩
  | 0xff => .ok ⟨p0 ||| 15, type, data1, data2⟩
  | _ => .abort

/-- Packet::setNote: velocity 0 is canonicalized to NoteOff with velocity 64. -/
def setNote (p : Packet) (channel note velocity : Nat) : SetResult :=
  if velocity = 0 then p.set 0x80 channel note 64
  else p.set 0x90 channel note velocity

/-- Packet::setNoteOff. -/
def setNoteOff (p : Packet) (channel note velocity : Nat) : SetResult :=
  p.set 0x80 channel note velocity

/-- Packet::setPitchBend: the signed value plus 8192 is truncated to uint16_t
and split into 7-bit LSB/MSB data bytes. -/
def setPitchBend (p : Packet) (channel : Nat) (value : Int) : SetResult :=
  let bits := toUInt16 (value + 8192)
  p.set 0xe0 channel (bits &&& 0x7f) ((bits >>> 7) &&& 0x7f)

end Packet

end V2MIDI

namespace V2MIDI

/-- Packet::set(uint8_t channel, Status type, uint8_t data1, uint8_t data2)
from src/PortPacket.cpp lines 488-556, the channel-first overload that the
SerialDevice::receive call sites resolve to. The CIN nibble of byte 0 is
cleared unconditionally before the switch, so the failure (NULL) paths leave
the packet with a cleared CIN and the remaining bytes untouched; system
statuses fail when the channel is non-zero. Returns the resulting packet and
whether the encoding succeeded. -/
def Packet.setChannelType (p : Packet) (channel type data1 data2 : Nat) : Packet × Bool :=
  let p0 := p.d0 &&& 0xf0
  match type with
  | 0x80 => (⟨p0 ||| 8, type ||| channel, data1, data2⟩, true)
  | 0x90 => (⟨p0 ||| 9, type ||| channel, data1, data2⟩, true)
  | 0xa0 => (⟨p0 ||| 10, type ||| channel, data1, data2⟩, true)
  | 0xb0 => (⟨p0 ||| 11, type ||| channel, data1, data2⟩, true)
  | 0xc0 => (⟨p0 ||| 12, type ||| channel, data1, data2⟩, true)
  | 0xd0 => (⟨p0 ||| 13, type ||| channel, data1, data2⟩, true)
  | 0xe0 => (⟨p0 ||| 14, type ||| channel, data1, data2⟩, true)
  | 0xf3 => if channel > 0 then ({ p with d0 := p0 }, false)
            else (⟨p0 ||| 2, type ||| channel, data1, data2⟩, true)
  | 0xf1 => if channel > 0 then ({ p with d0 := p0 }, false)
            else (⟨p0 ||| 2, type ||| channel, data1, data2⟩, true)
  | 0xf2 => if channel > 0 then ({ p with d0 := p0 }, false)
            else (⟨p0 ||| 3, type ||| channel, data1, data2⟩, true)
  | 0xf6 => if channel > 0 then ({ p with d0 := p0 }, false)
            else (⟨p0 ||| 15, type ||| channel, data1, data2⟩, true)
  | 0xf8 => if channel > 0 then ({ p with d0 := p0 }, false)
            else (⟨p0 ||| 15, type ||| channel, data1, data2⟩, true)
  | 0xfa => if channel > 0 then ({ p with d0 := p0 }, false)
            else (⟨p0 ||| 15, type ||| channel, data1, data2⟩, true)
  | 0xfb => if channel > 0 then ({ p with d0 := p0 }, false)
            else (⟨p0 ||| 15, type ||| channel, data1, data2⟩, true)
  | 0xfc => if channel > 0 then ({ p with d0 := p0 }, false)
            else (⟨p0 ||| 15, type ||| channel, data1, data2⟩, true)
  | 0xfe => if channel > 0 then ({ p with d0 := p0 }, false)
            else (⟨p0 ||| 15, type ||| channel, data1, data2⟩, true)
  | 0xff => if channel > 0 then ({ p with d0 := p0 }, false)
            else (⟨p0 ||| 15, type ||| channel, data1, data2⟩, true)
  | _ => ({ p with d0 := p0 }, false)

/-- Parser state enumeration of SerialDevice (src/MIDI/SerialDevice.h). -/
inductive SState where
  | Idle
  | Status
  | Data1
  | Data2
  | SysEx
deriving Repr, DecidableEq

/-- The serial parser's state variables: current state, latched channel,
latched status, and the stashed first data byte. Zero-initialized as in the
C++ member initializers. -/
structure SerialState where
  state : SState
  channel : Nat
  status : Nat
  data1 : Nat
deriving Repr, DecidableEq

/-- The default-initialized SerialDevice parser state. -/
def serialInit : SerialState :=
  ⟨.Idle, 0, 0, 0⟩

/-- Real-time status bytes recognized by SerialDevice::receive: SystemClock,
SystemStart, SystemContinue, SystemStop, SystemActiveSensing, SystemReset. -/
def isRealTime (b : Nat) : Bool :=
  b = 0xf8 || b = 0xfa || b = 0xfb || b = 0xfc || b = 0xfe || b = 0xff

namespace SerialDevice

/-- SerialDevice::receive (src/MIDI/SerialDevice.h lines 64-161) for one input
byte b: real-time bytes are forwarded immediately without touching any state
variable; any other byte with the status bit set forces the Status state; the
state machine then latches status/channel, collects data bytes, and emits
completed messages through the packet, returning to Idle after each complete
message. Returns (new parser state, packet, whether a packet was produced). -/
def receive (s : SerialState) (midi : Packet) (b : Nat) : SerialState × Packet × Bool :=
  if isRealTime b then
    (s, (midi.setChannelType 0 b 0 0).1, true)
  else
    let s := if b &&& 0x80 ≠ 0 then { s with state := .Status } else s
    match s.state with
    | .Idle => (s, midi, false)
    | .Status =>
      let s := { s with status := Packet.getStatus b, channel := b &&& 0x0f }
      if s.status = 0xf6 then
        ({ s with state := .Idle }, (midi.setChannelType 0 s.status 0 0).1, true)
      else if s.status ∈ [0xc0, 0xd0, 0xf1, 0xf3, 0x90, 0x80, 0xb0, 0xe0, 0xf2] then
        ({ s with state := .Data1 }, midi, false)
      else if s.status = 0xf0 then
        ({ s with state := .SysEx }, midi, false)
      else
        (s, midi, false)
    | .Data1 =>
      if s.status ∈ [0xc0, 0xd0, 0xf1, 0xf3] then
        ({ s with state := .Idle }, (midi.setChannelType s.channel s.status b 0).1, true)
      else if s.status ∈ [0x90, 0x80, 0xa0, 0xb0, 0xe0, 0xf2] then
        ({ s with state := .Data2, data1 := b }, midi, false)
      else
        (s, midi, false)
    | .Data2 =>
      ({ s with state := .Idle },
        (midi.setChannelType s.channel s.status s.data1 b).1, true)
    | .SysEx => (s, midi, false)

/-- Repeated SerialDevice::receive over a byte sequence, collecting the
packets produced (a snapshot of the caller's packet at each true return). -/
def receiveList (s : SerialState) (midi : Packet) : List Nat → SerialState × Packet × List Packet
  | [] => (s, midi, [])
  | b :: rest =>
    let r1 := receive s midi b
    let r2 := receiveList r1.1 r1.2.1 rest
    (r2.1, r2.2.1, (if r1.2.2 then [r1.2.1] else []) ++ r2.2.2)

end SerialDevice

/-- Parser state of CC::HighResolution (src/MIDI/CCHighResolution.h). -/
inductive HRState where
  | Init
  | LowResolution
  | HighResolution
  | Wait
deriving Repr, DecidableEq

/-- One tracked controller of CC::HighResolution: the per-controller record
{state, msb, value} of the template instance with first = 0 and size = 1, so
controller number 0 is the MSB controller and 32 (ControllerLSB) its LSB
partner. -/
structure HRController where
  state : HRState
  msb : Nat
  value : Nat
deriving Repr, DecidableEq

/-- CC::HighResolution::reset zero-fills the controller records. -/
def HRController.reset : HRController :=
  ⟨.Init, 0, 0⟩

/-- CC::HighResolution::setByte (src/MIDI/CCHighResolution.h lines 84-129) for
the single tracked controller: controller numbers below ControllerLSB = 32 set
the pending MSB and run the MSB state transition, others combine the stored
MSB with the received LSB. The uint16_t value computations are taken modulo
2^16. Returns the updated record and the "value changed" boolean. -/
def HRController.setByte (c : HRController) (controller value : Nat) : HRController × Bool :=
  if controller < 32 then
    let c1 := { c with msb := value }
    if c1.state = .HighResolution then
      ({ c1 with state := .Wait }, false)
    else
      let c2 := { c1 with state := .LowResolution }
      let v := (value <<< 7) % 65536
      if v = c2.value then (c2, false)
      else ({ c2 with value := v }, true)
  else
    if c.state = .Init then (c, false)
    else
      let c2 := { c with state := .HighResolution }
      let v := ((c2.msb <<< 7) ||| value) % 65536
      if v = c2.value then (c2, false)
      else ({ c2 with value := v }, true)

/-- Inbound SysEx reassembly state of Port (src/MIDI/Port.h `_sysex.in`): the
buffered bytes (the first `length` bytes of the C++ buffer) and the appending
flag set while a started stream awaits its end frame. -/
structure SysExIn where
  buffer : List Nat
  appending : Bool
deriving Repr, DecidableEq

/-- The zero-initialized / reset inbound SysEx state. -/
def sysExInInit : SysExIn :=
  ⟨[], false⟩

namespace Port

/-- Port::storeSystemExclusive (src/MIDI/Port.h lines 337-477), dispatching on
the CIN nibble of packet byte 0, with the buffer capacity `size` standing for
the `_sysexSize` constructor argument. Returns the new inbound state, the
(possibly mutated) packet, and the bool the C++ function returns: true lets
dispatch() treat the packet as a complete message, and on the SysEx-end paths
byte 1 of the packet is overwritten with 0xF0 (SystemExclusive) first. -/
def storeSystemExclusive (size : Nat) (s : SysExIn) (p : Packet) : SysExIn × Packet × Bool :=
  let cin := p.d0 &&& 0x0f
  if (cin = 2 ∨ cin = 3) ∨ (8 ≤ cin ∧ cin ≤ 14) then
    (⟨[], false⟩, p, true)
  else if cin = 15 then
    if s.appending = false then (⟨[], false⟩, p, true)
    else if s.buffer.length + 1 > size then (⟨[], false⟩, p, false)
    else (⟨s.buffer ++ [p.d1], s.appending⟩, p, false)
  else if cin = 4 then
    if s.buffer.length + 3 > size then (⟨[], false⟩, p, false)
    else if s.appending = false then
      if p.d1 ≠ 0xf0 then (⟨[], false⟩, p, false)
      else (⟨[p.d1, p.d2, p.d3], true⟩, p, false)
    else (⟨s.buffer ++ [p.d1, p.d2, p.d3], true⟩, p, false)
  else if cin = 5 then
    if p.d1 ≠ 0xf7 then (⟨[], false⟩, p, false)
    else if s.appending = false then (⟨[], false⟩, p, false)
    else if s.buffer.length + 1 > size then (⟨[], false⟩, p, false)
    else (⟨s.buffer ++ [p.d1], false⟩, { p with d1 := 0xf0 }, true)
  else if cin = 6 then
    if p.d2 ≠ 0xf7 then (⟨[], false⟩, p, false)
    else if s.buffer.length + 2 > size then (⟨[], false⟩, p, false)
    else if s.appending = false then
      if p.d1 ≠ 0xf0 then (⟨[], false⟩, p, false)
      else (⟨[p.d1, p.d2], false⟩, { p with d1 := 0xf0 }, true)
    else (⟨s.buffer ++ [p.d1, p.d2], false⟩, { p with d1 := 0xf0 }, true)
  else if cin = 7 then
    if p.d3 ≠ 0xf7 then (⟨[], false⟩, p, false)
    else if s.buffer.length + 3 > size then (⟨[], false⟩, p, false)
    else if s.appending = false then
      if p.d1 ≠ 0xf0 then (⟨[], false⟩, p, false)
      else (⟨[p.d1, p.d2, p.d3], false⟩, { p with d1 := 0xf0 }, true)
    else (⟨s.buffer ++ [p.d1, p.d2, p.d3], false⟩, { p with d1 := 0xf0 }, true)
  else
    (⟨[], false⟩, p, false)

/-- Clock events handed to the clock handler by Port::dispatch. -/
inductive ClockEvent where
  | Tick
  | Start
  | Continue
  | Stop
deriving Repr, DecidableEq

/-- One handler invocation performed by Port::dispatch, with the arguments the
C++ code extracts from the packet (the pair of handleSystemExclusive overloads
is modelled as the single systemExclusive notification). -/
inductive Event where
  | packet (p : Packet)
  | note (channel note velocity : Nat)
  | noteOff (channel note velocity : Nat)
  | aftertouch (channel note pressure : Nat)
  | controlChange (channel controller value : Nat)
  | programChange (channel value : Nat)
  | aftertouchChannel (channel pressure : Nat)
  | pitchBend (channel : Nat) (value : Int)
  | songPosition (beats : Nat)
  | songSelect (number : Nat)
  | clock (e : ClockEvent)
  | systemExclusive (buffer : List Nat)
  | systemReset
deriving Repr, DecidableEq

/-- Port::dispatch (src/MIDI/Port.h lines 48-129): run storeSystemExclusive,
stop when it returns false, otherwise invoke handlePacket for every non-SysEx
type and the typed handler selected by the packet type. Returns the new
inbound SysEx state and the list of handler invocations, in order. -/
def dispatch (size : Nat) (s : SysExIn) (packet : Packet) : SysExIn × List Event :=
  let r := storeSystemExclusive size s packet
  let s' := r.1
  let p := r.2.1
  if !r.2.2 then (s', [])
  else
    let pre : List Event := if p.getType ≠ 0xf0 then [.packet p] else []
    let typed : List Event :=
      match p.getType with
      | 0x90 => [.note p.getChannel p.getNote p.getNoteVelocity]
      | 0x80 => [.noteOff p.getChannel p.getNote p.getNoteVelocity]
      | 0xa0 => [.aftertouch p.getChannel p.getAftertouchNote p.getAftertouch]
      | 0xb0 => [.controlChange p.getChannel p.getController p.getControllerValue]
      | 0xc0 => [.programChange p.getChannel p.getProgram]
      | 0xd0 => [.aftertouchChannel p.getChannel p.getAftertouchChannel]
      | 0xe0 => [.pitchBend p.getChannel (toInt16 p.getPitchBend)]
      | 0xf2 => [.songPosition p.getSongPosition]
      | 0xf3 => [.songSelect p.getSongSelect]
      | 0xf8 => [.clock .Tick]
      | 0xfa => [.clock .Start]
      | 0xfb => [.clock .Continue]
      | 0xfc => [.clock .Stop]
      | 0xf0 => [.systemExclusive s'.buffer]
      | 0xff => [.systemReset]
      | _ => []
    (s', pre ++ typed)

/-- Repeated Port::dispatch over a sequence of packets, concatenating the
handler invocations. -/
def dispatchList (size : Nat) (s : SysExIn) : List Packet → SysExIn × List Event
  | [] => (s, [])
  | p :: rest =>
    let r1 := dispatch size s p
    let r2 := dispatchList size r1.1 rest
    (r2.1, r1.2 ++ r2.2)

/-- A 3-byte SysEx start/continuation frame (CIN 4, cable 0) carrying the
chunk c. -/
def startFrame (c : List Nat) : Packet :=
  ⟨4, c.getD 0 0, c.getD 1 0, c.getD 2 0⟩

/-- The terminating SysEx frame for the final 1, 2 or 3 payload bytes
(CIN 5, 6 or 7, cable 0). -/
def endFrame (c : List Nat) : Packet :=
  match c with
  | [x] => ⟨5, x, 0, 0⟩
  | [x, y] => ⟨6, x, y, 0⟩
  | [x, y, z] => ⟨7, x, y, z⟩
  | _ => ⟨0, 0, 0, 0⟩

end Port

namespace File

/-- Loop body of Track::readNumber (src/MIDI/File.h lines 181-194) operating
on the bytes from the cursor onward: each byte contributes its low 7 bits to
the uint32 accumulator, a set bit 7 means more bytes follow and shifts the
accumulator left by 7 (truncated to 32 bits as in the C++ uint32_t). Returns
the decoded number and the count of bytes consumed, or none when the source
would read past the end of the track data. -/
def readNumberGo : List Nat → Nat → Option (Nat × Nat)
  | [], _ => none
  | b :: rest, number =>
    let n2 := number ||| (b &&& 0x7f)
    if b < 0x80 then some (n2, 1)
    else
      match readNumberGo rest ((n2 <<< 7) % 4294967296) with
      | some r => some (r.1, r.2 + 1)
      | none => none

/-- Track::readNumber: decode a variable-length number at the cursor,
returning the number and the advanced cursor. -/
def readNumber (data : List Nat) (cursor : Nat) : Option (Nat × Nat) :=
  (readNumberGo (data.drop cursor) 0).map fun r => (r.1, cursor + r.2)

/-- Continuation bytes of the variable-length encoding, following the spec's
words: big-endian, each byte contributes its low 7 bits, bit 7 set indicates
that more bytes follow. vlqHead m produces the continuation bytes encoding the
value m that precede the final (bit-7-clear) byte. -/
def vlqHead (m : Nat) : List Nat :=
  if h : m = 0 then [] else vlqHead (m / 128) ++ [m % 128 + 128]
termination_by m
decreasing_by exact Nat.div_lt_self (Nat.pos_of_ne_zero h) (by norm_num)

/-- Variable-length encoding of n per the spec: continuation bytes for the
high groups followed by the low 7 bits with bit 7 clear. -/
def vlqEncode (n : Nat) : List Nat :=
  vlqHead (n / 128) ++ [n % 128]

/-- Accumulator value after feeding the continuation bytes of m into the
readNumber loop starting from accumulator A. -/
def pushAcc (A m : Nat) : Nat :=
  if h : m = 0 then A else ((pushAcc A (m / 128) ||| m % 128) <<< 7) % 4294967296
termination_by m
decreasing_by exact Nat.div_lt_self (Nat.pos_of_ne_zero h) (by norm_num)

/-- The four signature bytes of the SMF header chunk, the characters of
"MThd". -/
def mthd : List Nat := [0x4d, 0x54, 0x68, 0x64]

/-- The four signature bytes of an SMF track chunk, the characters of
"MTrk". -/
def mtrk : List Nat := [0x4d, 0x54, 0x72, 0x6b]

/-- Tracks::readSignature: memcmp of the 4 bytes at the cursor against the
signature; none models a read past the end of the buffer (undefined behaviour
in the C++ source, never exercised by the theorems below). -/
def readSignature (data sig : List Nat) (cursor : Nat) : Option Bool :=
  if cursor + 4 ≤ data.length then
    some (decide ((data.drop cursor).take 4 = sig))
  else none

/-- Tracks::readBE32: big-endian 32-bit read at the cursor. -/
def readBE32 (data : List Nat) (cursor : Nat) : Option Nat :=
  if cursor + 4 ≤ data.length then
    some (data.getD cursor 0 <<< 24 ||| data.getD (cursor + 1) 0 <<< 16 |||
      data.getD (cursor + 2) 0 <<< 8 ||| data.getD (cursor + 3) 0)
  else none

/-- Tracks::readBE16: big-endian 16-bit read at the cursor. -/
def readBE16 (data : List Nat) (cursor : Nat) : Option Nat :=
  if cursor + 2 ≤ data.length then
    some (data.getD cursor 0 <<< 8 ||| data.getD (cursor + 1) 0)
  else none

/-- The observable state of Tracks (src/MIDI/File.h): Empty until a load
succeeds; Loaded carries the parsed header fields and the (offset, length)
slice of each track chunk. The Play/Stop states are entered only from Loaded
by play()/run() and are not needed for the load claims. -/
inductive TracksState where
  | Empty
  | Loaded (version nTracks division : Nat) (tracks : List (Nat × Nat))
deriving Repr, DecidableEq

/-- The track-chunk scan loop of Tracks::load: for each of the n tracks,
require the "MTrk" signature and a 32-bit length of at least 2, record the
(offset, length) slice and skip to the next chunk. The outer none models an
out-of-range read; the inner none is the parse failure that makes load return
false. -/
def scanTracks (data : List Nat) : Nat → Nat → Option (Option (List (Nat × Nat)))
  | 0, _ => some (some [])
  | n + 1, cursor =>
    match readSignature data mtrk cursor with
    | none => none
    | some false => some none
    | some true =>
      match readBE32 data (cursor + 4) with
      | none => none
      | some len =>
        if len < 2 then some none
        else
          match scanTracks data n (cursor + 8 + len) with
          | none => none
          | some none => some none
          | some (some ts) => some (some (((cursor + 8, len)) :: ts))

/-- Tracks::load (src/MIDI/File.h lines 207-266): on a non-null buffer the
state is set to Empty, then the "MThd" signature, the header length 6, a
format of at most 1, at most 16 tracks and a non-SMPTE division (bit 15
clear) are required before the track chunks are scanned; any failure returns
false with the state left Empty, success returns true in state Loaded. The
partially written private header fields on the failure paths are not
observable (every accessor first checks for the Empty state), so the model
returns just the flag and the observable state. -/
def load (data : List Nat) : Option (Bool × TracksState) :=
  match readSignature data mthd 0 with
  | none => none
  | some false => some (false, .Empty)
  | some true =>
    match readBE32 data 4 with
    | none => none
    | some hlen =>
      if hlen ≠ 6 then some (false, .Empty)
      else
        match readBE16 data 8 with
        | none => none
        | some version =>
          if version > 1 then some (false, .Empty)
          else
            match readBE16 data 10 with
            | none => none
            | some nTracks =>
              if nTracks > 16 then some (false, .Empty)
              else
                match readBE16 data 12 with
                | none => none
                | some division =>
                  if division &&& 0x8000 ≠ 0 then some (false, .Empty)
                  else
                    match scanTracks data nTracks 14 with
                    | none => none
                    | some none => some (false, .Empty)
                    | some (some ts) => some (true, .Loaded version nTracks division ts)

theorem lor_mul_128 (a b : Nat) (hb : b < 128) : 128 * a ||| b = 128 * a + b := by
  have h2 : (2 : Nat) ^ 7 = 128 := by norm_num
  have := Nat.mul_add_lt_is_or (i := 7) (b := b) (by omega) a
  rw [h2] at this
  exact this.symm

theorem and_127_of_lt (b : Nat) (hb : b < 128) : b &&& 0x7f = b := by
  have h1 : b &&& (2 ^ 7 - 1) = b % 2 ^ 7 := Nat.and_pow_two_sub_one_eq_mod b 7
  have h2 : (2 : Nat) ^ 7 - 1 = 0x7f := by norm_num
  rw [h2] at h1
  rw [h1]
  omega

theorem readNumberGo_vlqHead (m : Nat) : ∀ (A : Nat) (bs : List Nat),
    readNumberGo (vlqHead m ++ bs) A =
      (readNumberGo bs (pushAcc A m)).map fun r => (r.1, r.2 + (vlqHead m).length) := by
  induction m using Nat.strong_induction_on with
  | _ m ih =>
    intro A bs
    by_cases h : m = 0
    · subst h
      rw [vlqHead, pushAcc]
      simp only [dif_pos]
      cases hbs : readNumberGo bs A <;> simp [hbs]
    · rw [vlqHead, pushAcc]
      simp only [dif_neg h]
      rw [List.append_assoc, ih (m / 128) (Nat.div_lt_self (Nat.pos_of_ne_zero h) (by norm_num))]
      have hb : ¬(m % 128 + 128 < 0x80) := by omega
      have hmask : (m % 128 + 128) &&& 0x7f = m % 128 := by
        have h1 : (m % 128 + 128) &&& (2 ^ 7 - 1) = (m % 128 + 128) % 2 ^ 7 :=
          Nat.and_pow_two_sub_one_eq_mod _ 7
        have h2 : (2 : Nat) ^ 7 - 1 = 0x7f := by norm_num
        rw [h2] at h1
        rw [h1]
        omega
      simp only [List.cons_append, List.nil_append, readNumberGo, hmask, if_neg hb]
      cases hbs : readNumberGo bs (((pushAcc A (m / 128) ||| m % 128) <<< 7) % 4294967296) <;>
        simp [hbs, List.length_append]
      omega

theorem pushAcc_zero (m : Nat) (hm : m < 33554432) : pushAcc 0 m = 128 * m := by
  induction m using Nat.strong_induction_on with
  | _ m ih =>
    by_cases h : m = 0
    · subst h; rw [pushAcc]; simp
    · rw [pushAcc]
      simp only [dif_neg h]
      rw [ih (m / 128) (Nat.div_lt_self (Nat.pos_of_ne_zero h) (by norm_num)) (by omega)]
      have hor : 128 * (m / 128) ||| m % 128 = 128 * (m / 128) + m % 128 :=
        lor_mul_128 (m / 128) (m % 128) (by omega)
      have hm2 : 128 * (m / 128) + m % 128 = m := by omega
      rw [hor, hm2, Nat.shiftLeft_eq, Nat.mod_eq_of_lt (by norm_num; omega)]
      ring

/-- C5: for every n up to 0x0FFFFFFF, Track::readNumber applied at a cursor
whose remaining bytes start with the variable-length encoding of n decodes
exactly n and advances the cursor by exactly the number of encoded bytes; in
particular 0x81 0x80 0x00 decodes to 16384 and 0x7F decodes to 127. -/
theorem readNumber_decodes_vlqEncode (n cursor : Nat) (data rest : List Nat)
    (hn : n ≤ 0x0fffffff) (hdata : data.drop cursor = vlqEncode n ++ rest) :
    readNumber data cursor = some (n, cursor + (vlqEncode n).length) ∧
    readNumber [0x81, 0x80, 0x00] 0 = some (16384, 3) ∧
    readNumber [0x7f] 0 = some (127, 1) := by
  refine ⟨?_, by decide, by decide⟩
  rw [readNumber, hdata, vlqEncode, List.append_assoc,
    readNumberGo_vlqHead, pushAcc_zero (n / 128) (by omega)]
  have hlt : n % 128 < 0x80 := Nat.mod_lt n (by norm_num)
  have hmask : n % 128 &&& 0x7f = n % 128 := and_127_of_lt (n % 128) hlt
  have hor : 128 * (n / 128) ||| n % 128 = 128 * (n / 128) + n % 128 :=
    lor_mul_128 (n / 128) (n % 128) (by omega)
  have hn2 : 128 * (n / 128) + n % 128 = n := by omega
  simp only [List.cons_append, readNumberGo, hmask, if_pos hlt, hor, hn2,
    List.length_append, List.length_cons, List.length_nil]
  simp [Nat.add_comm]

/-- C5 witness: the round-trip theorem applied at n = 16384 with an empty
tail, where the encoding is exactly 0x81 0x80 0x00. -/
theorem readNumber_decodes_vlqEncode_witness :
    (16384 : Nat) ≤ 0x0fffffff ∧
    (([0x81, 0x80, 0x00] : List Nat).drop 0 = vlqEncode 16384 ++ []) ∧
    readNumber [0x81, 0x80, 0x00] 0 = some (16384, 0 + (vlqEncode 16384).length) :=
  ⟨by decide, by simp [vlqEncode, vlqHead],
    (readNumber_decodes_vlqEncode 16384 0 [0x81, 0x80, 0x00] [] (by decide)
      (by simp [vlqEncode, vlqHead])).1⟩

/-- C8: Tracks::load never exposes partial state (whenever it returns false
the observable state is Empty, otherwise it is Loaded), and it returns false
with state Empty on every header whose "MThd" signature is missing, whose
header length field differs from 6, whose format exceeds 1, whose track count
exceeds the static maximum of 16, whose division is SMPTE-coded (bit 15 set),
or whose first track chunk signature is not "MTrk". -/
theorem load_rejects_malformed_headers :
    (∀ (data : List Nat) (r : Bool × TracksState), load data = some r →
        r = (false, .Empty) ∨ ∃ v n dv ts, r = (true, .Loaded v n dv ts)) ∧
    (∀ data : List Nat, readSignature data mthd 0 = some false →
        load data = some (false, .Empty)) ∧
    (∀ (data : List Nat) (hlen : Nat), readSignature data mthd 0 = some true →
        readBE32 data 4 = some hlen → hlen ≠ 6 →
        load data = some (false, .Empty)) ∧
    (∀ (data : List Nat) (v : Nat), readSignature data mthd 0 = some true →
        readBE32 data 4 = some 6 → readBE16 data 8 = some v → v > 1 →
        load data = some (false, .Empty)) ∧
    (∀ (data : List Nat) (v n : Nat), readSignature data mthd 0 = some true →
        readBE32 data 4 = some 6 → readBE16 data 8 = some v → v ≤ 1 →
        readBE16 data 10 = some n → n > 16 →
        load data = some (false, .Empty)) ∧
    (∀ (data : List Nat) (v n dv : Nat), readSignature data mthd 0 = some true →
        readBE32 data 4 = some 6 → readBE16 data 8 = some v → v ≤ 1 →
        readBE16 data 10 = some n → n ≤ 16 →
        readBE16 data 12 = some dv → dv &&& 0x8000 ≠ 0 →
        load data = some (false, .Empty)) ∧
    (∀ (data : List Nat) (v n dv : Nat), readSignature data mthd 0 = some true →
        readBE32 data 4 = some 6 → readBE16 data 8 = some v → v ≤ 1 →
        readBE16 data 10 = some n → n ≤ 16 → 1 ≤ n →
        readBE16 data 12 = some dv → dv &&& 0x8000 = 0 →
        readSignature data mtrk 14 = some false →
        load data = some (false, .Empty)) := by
  refine ⟨?_, ?_, ?_, ?_, ?_, ?_, ?_⟩
  · intro data r h
    simp only [load] at h
    repeat' split at h
    all_goals
      first
        | (injection h with h; subst h;
           first
             | exact Or.inl rfl
             | exact Or.inr ⟨_, _, _, _, rfl⟩)
        | exact Option.noConfusion h
  · intro data h1
    simp only [load, h1]
  · intro data hlen h1 h2 h3
    simp only [load, h1, h2, h3]
    simp
    intro h6
    exact absurd h6 h3
  · intro data v h1 h2 h3 h4
    simp only [load, h1, h2, h3, h4]
    simp
  · intro data v n h1 h2 h3 h4 h5 h6
    have h4' : ¬ (v > 1) := by omega
    simp only [load, h1, h2, h3, h4', h5, h6]
    simp
  · intro data v n dv h1 h2 h3 h4 h5 h6 h7 h8
    have h4' : ¬ (v > 1) := by omega
    have h6' : ¬ (n > 16) := by omega
    simp only [load, h1, h2, h3, h4', h5, h6', h7, h8]
    simp
    intro hz
    exact absurd hz h8
  · intro data v n dv h1 h2 h3 h4 h5 h6 h6b h7 h8 h9
    have h4' : ¬ (v > 1) := by omega
    have h6' : ¬ (n > 16) := by omega
    obtain ⟨m, rfl⟩ : ∃ m, n = m + 1 := ⟨n - 1, by omega⟩
    simp only [load, h1, h2, h3, h4', h5, h6', h7, h8, scanTracks, h9]
    simp

/-- C8 witness: the 14-byte header MThd, length 6, format 0, one track,
division 0x8001 (SMPTE-coded) is rejected with the state left Empty. -/
theorem load_rejects_malformed_headers_witness :
    readSignature [0x4d, 0x54, 0x68, 0x64, 0, 0, 0, 6, 0, 0, 0, 1, 0x80, 0x01] mthd 0
        = some true ∧
    readBE16 [0x4d, 0x54, 0x68, 0x64, 0, 0, 0, 6, 0, 0, 0, 1, 0x80, 0x01] 12
        = some 0x8001 ∧
    load [0x4d, 0x54, 0x68, 0x64, 0, 0, 0, 6, 0, 0, 0, 1, 0x80, 0x01]
        = some (false, .Empty) :=
  ⟨by decide, by decide,
    load_rejects_malformed_headers.2.2.2.2.2.1
      [0x4d, 0x54, 0x68, 0x64, 0, 0, 0, 6, 0, 0, 0, 1, 0x80, 0x01] 0 1 0x8001
      (by decide) (by decide) (by decide) (by decide) (by decide) (by decide)
      (by decide) (by decide)⟩

end File

/-- Auxiliary: a join of chunks of length 3 has length 3 times the number of
chunks. -/
theorem join_length_of_chunks : ∀ (css : List (List Nat)),
    (∀ c ∈ css, c.length = 3) → css.join.length = 3 * css.length := by
  intro css
  induction css with
  | nil => intro _; simp
  | cons c rest ih =>
    intro h
    have hc : c.length = 3 := h c (by simp)
    have hr := ih fun d hd => h d (by simp [hd])
    simp [hc, hr]
    omega

/-- Auxiliary: a dispatch whose frame is rejected by storeSystemExclusive
invokes no handler. -/
theorem dispatch_rejected (size : Nat) (s : SysExIn) (p : Packet) (s' : SysExIn)
    (p' : Packet) (h : Port.storeSystemExclusive size s p = (s', p', false)) :
    Port.dispatch size s p = (s', []) := by
  simp [Port.dispatch, h]

/-- Auxiliary: a dispatch whose frame completes a SysEx stream (the packet
comes back from storeSystemExclusive accepted with status byte 0xF0) performs
exactly the SysEx handler invocation with the buffered stream. -/
theorem dispatch_completed (size : Nat) (s : SysExIn) (p : Packet) (s' : SysExIn)
    (p' : Packet) (h : Port.storeSystemExclusive size s p = (s', p', true))
    (h1 : p'.d1 = 0xf0) :
    Port.dispatch size s p = (s', [.systemExclusive s'.buffer]) := by
  simp [Port.dispatch, h, Packet.getType, Packet.getStatus, h1]

/-- Auxiliary: dispatching the continuation frames of the chunks css followed
by the end frame of the final chunk, from a state that is mid-stream with
buffered bytes pre, appends everything and delivers the single SysEx handler
invocation on the end frame. -/
theorem dispatchList_continue_frames : ∀ (css : List (List Nat)) (pre last : List Nat)
    (size : Nat), (∀ c ∈ css, c.length = 3) →
    1 ≤ last.length → last.length ≤ 3 →
    last.getLast? = some 0xf7 →
    pre.length + 3 * css.length + last.length ≤ size →
    Port.dispatchList size ⟨pre, true⟩ (css.map Port.startFrame ++ [Port.endFrame last])
      = (⟨pre ++ css.join ++ last, false⟩,
          [.systemExclusive (pre ++ css.join ++ last)]) := by
  intro css
  induction css with
  | nil =>
    intro pre last size _ hlast1 hlast3 hend hcap
    match last, hlast1, hlast3 with
    | [x], _, _ =>
      simp only [List.getLast?_singleton, Option.some.injEq] at hend
      subst hend
      have hns : ¬ (pre.length + 1 > size) := by simp at hcap; omega
      have hstore : Port.storeSystemExclusive size ⟨pre, true⟩ (Port.endFrame [0xf7])
          = (⟨pre ++ [0xf7], false⟩, ⟨5, 0xf0, 0, 0⟩, true) := by
        simp [Port.endFrame, Port.storeSystemExclusive, hns,
          (by decide : (5 : Nat) &&& 0x0f = 5)]
      simp only [List.map_nil, List.nil_append, Port.dispatchList]
      rw [dispatch_completed size ⟨pre, true⟩ (Port.endFrame [0xf7]) _ _ hstore rfl]
      simp
    | [x, y], _, _ =>
      simp only [List.getLast?_cons_cons, List.getLast?_singleton, Option.some.injEq] at hend
      subst hend
      have hns : ¬ (pre.length + 2 > size) := by simp at hcap; omega
      have hstore : Port.storeSystemExclusive size ⟨pre, true⟩ (Port.endFrame [x, 0xf7])
          = (⟨pre ++ [x, 0xf7], false⟩, ⟨6, 0xf0, 0xf7, 0⟩, true) := by
        simp [Port.endFrame, Port.storeSystemExclusive, hns,
          (by decide : (6 : Nat) &&& 0x0f = 6)]
      simp only [List.map_nil, List.nil_append, Port.dispatchList]
      rw [dispatch_completed size ⟨pre, true⟩ (Port.endFrame [x, 0xf7]) _ _ hstore rfl]
      simp
    | [x, y, z], _, _ =>
      simp only [List.getLast?_cons_cons, List.getLast?_singleton, Option.some.injEq] at hend
      subst hend
      have hns : ¬ (pre.length + 3 > size) := by simp at hcap; omega
      have hstore : Port.storeSystemExclusive size ⟨pre, true⟩ (Port.endFrame [x, y, 0xf7])
          = (⟨pre ++ [x, y, 0xf7], false⟩, ⟨7, 0xf0, y, 0xf7⟩, true) := by
        simp [Port.endFrame, Port.storeSystemExclusive, hns,
          (by decide : (7 : Nat) &&& 0x0f = 7)]
      simp only [List.map_nil, List.nil_append, Port.dispatchList]
      rw [dispatch_completed size ⟨pre, true⟩ (Port.endFrame [x, y, 0xf7]) _ _ hstore rfl]
      simp
  | cons c rest ih =>
    intro pre last size hcs hlast1 hlast3 hend hcap
    have hc : c.length = 3 := hcs c (by simp)
    match c, hc with
    | [a, b, d], _ =>
      simp only [List.map_cons, List.cons_append, Port.dispatchList]
      have hns : ¬ (pre.length + 3 > size) := by simp at hcap; omega
      have hstore : Port.storeSystemExclusive size ⟨pre, true⟩ (Port.startFrame [a, b, d])
          = (⟨pre ++ [a, b, d], true⟩, Port.startFrame [a, b, d], false) := by
        simp [Port.startFrame, Port.storeSystemExclusive, hns,
          (by decide : (4 : Nat) &&& 0x0f = 4)]
      simp only [dispatch_rejected size ⟨pre, true⟩ (Port.startFrame [a, b, d]) _ _ hstore,
        List.append_eq, List.nil_append]
      rw [ih (pre ++ [a, b, d]) last size (fun e he => hcs e (by simp [he]))
        hlast1 hlast3 hend (by simp at hcap ⊢; omega)]
      simp

/-- C1: for every byte string S starting with 0xF0, ending with 0xF7, with all
interior bytes below 0x80, and for every partition of S into 3-byte CIN-4
start/continue chunks followed by a final CIN-5/6/7 end chunk of 1/2/3 bytes,
dispatching the resulting frame sequence with sufficient buffer capacity
invokes the SysEx handler exactly once, with a buffer equal to S. -/
theorem dispatch_reassembles_sysex (S : List Nat) (css : List (List Nat))
    (last : List Nat) (size : Nat)
    (hS : S = css.join ++ last)
    (hcs : ∀ c ∈ css, c.length = 3)
    (hlast1 : 1 ≤ last.length) (hlast3 : last.length ≤ 3)
    (hhead : S.head? = some 0xf0)
    (hlastB : S.getLast? = some 0xf7)
    (hinner : ∀ b ∈ (S.drop 1).dropLast, b < 0x80)
    (hcap : S.length ≤ size) :
    Port.dispatchList size sysExInInit (css.map Port.startFrame ++ [Port.endFrame last])
      = (⟨S, false⟩, [.systemExclusive S]) := by
  have hlastne : last ≠ [] := by
    intro h
    rw [h] at hlast1
    simp at hlast1
  have hend : last.getLast? = some 0xf7 := by
    rw [hS, List.getLast?_append] at hlastB
    cases hl : last.getLast? with
    | none => exact absurd (List.getLast?_eq_none_iff.mp hl) hlastne
    | some v => rw [hl] at hlastB; simpa using hlastB
  have hjoin := join_length_of_chunks css hcs
  have hSlen : S.length = 3 * css.length + last.length := by
    rw [hS]
    simp [hjoin]
  cases css with
  | nil =>
    simp only [List.join_nil, List.nil_append] at hS
    subst hS
    match S, hlast1, hlast3 with
    | [x], _, _ =>
      simp only [List.head?_cons, Option.some.injEq] at hhead
      simp only [List.getLast?_singleton, Option.some.injEq] at hend
      omega
    | [x, y], _, _ =>
      simp only [List.head?_cons, Option.some.injEq] at hhead
      simp only [List.getLast?_cons_cons, List.getLast?_singleton, Option.some.injEq] at hend
      subst hhead; subst hend
      have hns : ¬ ((2 : Nat) > size) := by simp at hcap; omega
      have hstore : Port.storeSystemExclusive size sysExInInit (Port.endFrame [0xf0, 0xf7])
          = (⟨[0xf0, 0xf7], false⟩, ⟨6, 0xf0, 0xf7, 0⟩, true) := by
        simp [Port.endFrame, Port.storeSystemExclusive, sysExInInit, hns,
          (by decide : (6 : Nat) &&& 0x0f = 6)]
      simp only [List.map_nil, List.nil_append, Port.dispatchList]
      rw [dispatch_completed size sysExInInit (Port.endFrame [0xf0, 0xf7]) _ _ hstore rfl]
      simp
    | [x, y, z], _, _ =>
      simp only [List.head?_cons, Option.some.injEq] at hhead
      simp only [List.getLast?_cons_cons, List.getLast?_singleton, Option.some.injEq] at hend
      subst hhead; subst hend
      have hns : ¬ ((3 : Nat) > size) := by simp at hcap; omega
      have hstore : Port.storeSystemExclusive size sysExInInit (Port.endFrame [0xf0, y, 0xf7])
          = (⟨[0xf0, y, 0xf7], false⟩, ⟨7, 0xf0, y, 0xf7⟩, true) := by
        simp [Port.endFrame, Port.storeSystemExclusive, sysExInInit, hns,
          (by decide : (7 : Nat) &&& 0x0f = 7)]
      simp only [List.map_nil, List.nil_append, Port.dispatchList]
      rw [dispatch_completed size sysExInInit (Port.endFrame [0xf0, y, 0xf7]) _ _ hstore rfl]
      simp
  | cons c rest =>
    have hc : c.length = 3 := hcs c (by simp)
    match c, hc with
    | [a, b, d], _ =>
      have ha : a = 0xf0 := by
        rw [hS] at hhead
        simpa using hhead
      subst ha
      simp only [List.map_cons, List.cons_append, Port.dispatchList]
      have hns : ¬ ((3 : Nat) > size) := by simp at hSlen; omega
      have hstore : Port.storeSystemExclusive size sysExInInit (Port.startFrame [0xf0, b, d])
          = (⟨[0xf0, b, d], true⟩, Port.startFrame [0xf0, b, d], false) := by
        simp [Port.startFrame, Port.storeSystemExclusive, sysExInInit, hns,
          (by decide : (4 : Nat) &&& 0x0f = 4)]
      simp only [dispatch_rejected size sysExInInit (Port.startFrame [0xf0, b, d]) _ _ hstore,
        List.append_eq, List.nil_append]
      rw [dispatchList_continue_frames rest [0xf0, b, d] last size
        (fun e he => hcs e (by simp [he])) hlast1 hlast3 hend
        (by simp at hSlen ⊢; omega)]
      rw [hS]
      simp

/-- C1 witness: the SysEx stream F0 01 02 F7 split into one CIN-4 frame and a
CIN-5 end frame reassembles to itself and fires the handler once. -/
theorem dispatch_reassembles_sysex_witness :
    Port.dispatchList 4 sysExInInit
        ([[0xf0, 0x01, 0x02]].map Port.startFrame ++ [Port.endFrame [0xf7]])
      = (⟨[0xf0, 0x01, 0x02, 0xf7], false⟩,
          [.systemExclusive [0xf0, 0x01, 0x02, 0xf7]]) :=
  dispatch_reassembles_sysex [0xf0, 0x01, 0x02, 0xf7] [[0xf0, 0x01, 0x02]] [0xf7] 4
    (by decide) (by decide) (by decide) (by decide) (by decide) (by decide)
    (by decide) (by decide)

set_option maxHeartbeats 1000000 in
/-- C10: whenever Port::storeSystemExclusive accepts a packet (returns true,
letting dispatch proceed), the packet's status byte has been overwritten with
0xF0 exactly when the frame is a SysEx end frame (CIN 5, 6 or 7) completing
the inbound stream; every other accepted frame (channel-voice, System Common,
or a single-byte frame outside a stream, which never completes a stream)
leaves the packet bytes unchanged. -/
theorem store_mutates_packet_only_on_end_frames (size : Nat) (s : SysExIn)
    (p : Packet) (s' : SysExIn) (p' : Packet)
    (h : Port.storeSystemExclusive size s p = (s', p', true)) :
    ((p.d0 &&& 0x0f = 5 ∨ p.d0 &&& 0x0f = 6 ∨ p.d0 &&& 0x0f = 7) →
      p' = { p with d1 := 0xf0 }) ∧
    (¬(p.d0 &&& 0x0f = 5 ∨ p.d0 &&& 0x0f = 6 ∨ p.d0 &&& 0x0f = 7) →
      p' = p) := by
  obtain ⟨k, hk, hg⟩ : ∃ k, k ≤ 15 ∧ p.d0 &&& 0x0f = k :=
    ⟨p.d0 &&& 0x0f, Nat.and_le_right, rfl⟩
  simp only [Port.storeSystemExclusive, hg] at h ⊢
  interval_cases k <;>
    (try norm_num [Prod.mk.injEq] at h ⊢) <;>
    (try split_ifs at h) <;>
    (try norm_num [Prod.mk.injEq] at h) <;>
    simp_all

/-- C10 witness: a CIN-6 end frame accepted mid-stream comes back with its
status byte rewritten to 0xF0, per the theorem. -/
theorem store_mutates_packet_only_on_end_frames_witness :
    ((6 : Nat) &&& 0x0f = 5 ∨ (6 : Nat) &&& 0x0f = 6 ∨ (6 : Nat) &&& 0x0f = 7) ∧
    (⟨6, 0x02, 0xf7, 0⟩ : Packet).d1 = 0x02 ∧
    ({ (⟨6, 0x02, 0xf7, 0⟩ : Packet) with d1 := 0xf0 }
      = (⟨6, 0xf0, 0xf7, 0⟩ : Packet)) ∧
    (Port.storeSystemExclusive 8 ⟨[0xf0, 0x7e], true⟩ ⟨6, 0x02, 0xf7, 0⟩
      = (⟨[0xf0, 0x7e, 0x02, 0xf7], false⟩, ⟨6, 0xf0, 0xf7, 0⟩, true)) ∧
    ((⟨6, 0xf0, 0xf7, 0⟩ : Packet) = { (⟨6, 0x02, 0xf7, 0⟩ : Packet) with d1 := 0xf0 }) :=
  ⟨by decide, by decide, by decide, by decide,
    (store_mutates_packet_only_on_end_frames 8 ⟨[0xf0, 0x7e], true⟩ ⟨6, 0x02, 0xf7, 0⟩
      ⟨[0xf0, 0x7e, 0x02, 0xf7], false⟩ ⟨6, 0xf0, 0xf7, 0⟩ (by decide)).1 (by decide)⟩

/-- C3 counterexample: starting from the state immediately after reset(), with
m = l = 1 the MSB call already returns true, and the LSB call returns true as
well, so the sequence [MSB=1, LSB=1] produces two true returns rather than
exactly one true return on the LSB call. -/
theorem setByte_first_msb_already_reports_change :
    (HRController.reset.setByte 0 1).2 = true ∧
    ((HRController.reset.setByte 0 1).1.setByte 32 1).2 = true := by
  exact ⟨by decide, by decide⟩

/-- C3 amended: for all 7-bit m and l, starting immediately after reset(), the
sequence [MSB=m, LSB=l] returns true on the MSB call iff m is non-zero and
true on the LSB call iff l is non-zero, leaving the stored value (m<<7)|l; the
sequence [MSB=m, MSB=m, LSB=l] returns true on the first MSB call iff m is
non-zero, false on the second MSB call (the value is unchanged), and true on
the LSB call iff l is non-zero, leaving (m<<7)|l. -/
theorem setByte_msb_lsb_sequences (m l : Nat) (hm : m < 128) (hl : l < 128) :
    ((HRController.reset.setByte 0 m).2 = decide (m ≠ 0)) ∧
    (((HRController.reset.setByte 0 m).1.setByte 32 l).2 = decide (l ≠ 0)) ∧
    (((HRController.reset.setByte 0 m).1.setByte 32 l).1.value = m <<< 7 ||| l) ∧
    (((HRController.reset.setByte 0 m).1.setByte 0 m).2 = false) ∧
    (((HRController.reset.setByte 0 m).1.setByte 0 m).1
      = (HRController.reset.setByte 0 m).1) ∧
    ((((HRController.reset.setByte 0 m).1.setByte 0 m).1.setByte 32 l).2
      = decide (l ≠ 0)) ∧
    ((((HRController.reset.setByte 0 m).1.setByte 0 m).1.setByte 32 l).1.value
      = m <<< 7 ||| l) := by
  have hms : m <<< 7 = 128 * m := by
    rw [Nat.shiftLeft_eq]; ring
  have hor : m <<< 7 ||| l = 128 * m + l := by
    rw [hms]
    exact (Nat.mul_add_lt_is_or (i := 7) hl m).symm
  have hvm : (m <<< 7) % 65536 = 128 * m := by
    rw [hms, Nat.mod_eq_of_lt (by omega)]
  have hvl : ((m <<< 7) ||| l) % 65536 = 128 * m + l := by
    rw [hor, Nat.mod_eq_of_lt (by omega)]
  have e1 : HRController.reset.setByte 0 m
      = (⟨.LowResolution, m, 128 * m⟩, decide (m ≠ 0)) := by
    simp only [HRController.setByte, HRController.reset, hvm]
    by_cases hm0 : m = 0 <;> simp [hm0]
  have e2 : (HRController.mk .LowResolution m (128 * m)).setByte 0 m
      = (⟨.LowResolution, m, 128 * m⟩, false) := by
    simp [HRController.setByte, hvm]
  have e3 : (HRController.mk .LowResolution m (128 * m)).setByte 32 l
      = (⟨.HighResolution, m, 128 * m + l⟩, decide (l ≠ 0)) := by
    simp only [HRController.setByte, hvl]
    by_cases hl0 : l = 0 <;> simp [hl0]
  rw [e1]
  simp only [e2, e3, hor]
  simp

/-- C3 witness: concrete instance of the amended emission pattern. -/
theorem setByte_msb_lsb_sequences_witness :
    (3 : Nat) < 128 ∧ (5 : Nat) < 128 ∧
    (((HRController.reset.setByte 0 3).1.setByte 32 5).1.value = 3 <<< 7 ||| 5) :=
  ⟨by decide, by decide, (setByte_msb_lsb_sequences 3 5 (by decide) (by decide)).2.2.1⟩

/-- C2: evaluation of the serial parser at the running-status input. After
emitting a complete message from state Data2 the parser moves to Idle, not
Status, so the following data bytes 0x40 0x50 are discarded and the byte
sequence 0x92 0x3C 0x7F 0x40 0x50 yields exactly one packet (NoteOn channel 2
note 60 velocity 127) instead of the two packets the claim describes: running
status is never reused even though the status and channel stay latched. -/
theorem serial_running_status_is_dropped :
    SerialDevice.receiveList serialInit ⟨0, 0, 0, 0⟩ [0x92, 0x3c, 0x7f, 0x40, 0x50]
      = (⟨.Idle, 2, 0x90, 0x3c⟩, ⟨9, 0x92, 0x3c, 0x7f⟩, [⟨9, 0x92, 0x3c, 0x7f⟩]) := by
  decide

/-- C6: a real-time byte (SystemClock, SystemStart, SystemContinue,
SystemStop, SystemActiveSensing, SystemReset) is forwarded immediately as a
packet with that status while every parser state variable is left unchanged;
in particular the input 0x92 0x3C 0xF8 0x7F yields a SystemClock packet
followed by NoteOn channel 2 note 60 velocity 127. -/
theorem serial_realtime_passthrough :
    (∀ (s : SerialState) (p : Packet) (b : Nat), isRealTime b = true →
      SerialDevice.receive s p b = (s, (p.setChannelType 0 b 0 0).1, true)) ∧
    SerialDevice.receiveList serialInit ⟨0, 0, 0, 0⟩ [0x92, 0x3c, 0xf8, 0x7f]
      = (⟨.Idle, 2, 0x90, 0x3c⟩, ⟨9, 0x92, 0x3c, 0x7f⟩,
          [⟨15, 0xf8, 0, 0⟩, ⟨9, 0x92, 0x3c, 0x7f⟩]) := by
  constructor
  · intro s p b h
    simp [SerialDevice.receive, h]
  · decide

/-- C6 witness: the real-time passthrough applied mid-message, at the concrete
state reached after 0x92 0x3C with the clock byte 0xF8. -/
theorem serial_realtime_passthrough_witness :
    isRealTime 0xf8 = true ∧
    SerialDevice.receive ⟨.Data2, 2, 0x90, 0x3c⟩ ⟨0, 0, 0, 0⟩ 0xf8
      = (⟨.Data2, 2, 0x90, 0x3c⟩, ⟨15, 0xf8, 0, 0⟩, true) :=
  ⟨by decide, serial_realtime_passthrough.1 ⟨.Data2, 2, 0x90, 0x3c⟩ ⟨0, 0, 0, 0⟩ 0xf8 (by decide)⟩

/-- C4: evaluation of the pitch-bend codec at the spec's center scenario and at
the failing input. setPitchBend(5, 0) produces wire bytes (0xE5, 0x00, 0x40)
and getPitchBend on that packet returns 0, as claimed; but for the negative
value −1 the declared uint16_t return type of getPitchBend wraps the decoded
value to 65535 instead of returning −1, so the claimed round-trip to the
signed range fails for every negative value. -/
theorem getPitchBend_center_ok_but_negative_wraps :
    Packet.setPitchBend ⟨0, 0, 0, 0⟩ 5 0 = .ok ⟨14, 0xe5, 0x00, 0x40⟩ ∧
    Packet.getPitchBend ⟨14, 0xe5, 0x00, 0x40⟩ = 0 ∧
    Packet.setPitchBend ⟨0, 0, 0, 0⟩ 0 (-1) = .ok ⟨14, 0xe0, 0x7f, 0x3f⟩ ∧
    Packet.getPitchBend ⟨14, 0xe0, 0x7f, 0x3f⟩ = 65535 := by
  refine ⟨by decide, by decide, by decide, by decide⟩

/-- C7 counterexample: encoding a system message (SystemClock, with the
non-zero channel 1) through Packet::set reaches std::abort(), and so does
Packet::setSystem on an unsupported status (NoteOn); neither operation signals
failure by an error result, refuting the claim that these operations never
abort. -/
theorem set_system_status_reaches_abort :
    Packet.set ⟨0, 0, 0, 0⟩ 0xf8 1 0 0 = .abort ∧
    Packet.setSystem ⟨0, 0, 0, 0⟩ 0x90 0 0 = .abort := by
  exact ⟨by decide, by decide⟩

/-- C7 amended: Packet::set completes normally exactly when the status
argument is one of the seven channel-voice statuses (the channel is never
validated), and Packet::setSystem completes normally exactly for the supported
system statuses; every other status reaches std::abort(), and no third
error-result outcome exists. -/
theorem set_completes_iff_channel_voice (p : Packet) (type channel data1 data2 : Nat) :
    ((∃ q, p.set type channel data1 data2 = .ok q) ↔
      type ∈ [0x80, 0x90, 0xa0, 0xb0, 0xc0, 0xd0, 0xe0]) ∧
    ((∃ q, p.setSystem type data1 data2 = .ok q) ↔
      type ∈ [0xf1, 0xf2, 0xf3, 0xf6, 0xf8, 0xfa, 0xfb, 0xfc, 0xfe, 0xff]) ∧
    (p.set type channel data1 data2 = .abort ∨
      ∃ q, p.set type channel data1 data2 = .ok q) ∧
    (p.setSystem type data1 data2 = .abort ∨
      ∃ q, p.setSystem type data1 data2 = .ok q) := by
  refine ⟨?_, ?_, ?_, ?_⟩
  · unfold Packet.set
    split <;> simp_all
  · unfold Packet.setSystem
    split <;> simp_all
  · unfold Packet.set
    split <;> simp
  · unfold Packet.setSystem
    split <;> simp

/-- C9: setNote with velocity 0 produces a byte-for-byte identical packet to
setNoteOff with velocity 64, on any equal starting packet. -/
theorem setNote_zero_velocity_eq_setNoteOff (p : Packet) (channel note : Nat)
    (hch : channel < 16) (hn : note < 128) :
    p.setNote channel note 0 = p.setNoteOff channel note 64 := by
  rfl

/-- C9 witness: concrete instance of the NoteOn/NoteOff canonicalization. -/
theorem setNote_zero_velocity_eq_setNoteOff_witness :
    (5 : Nat) < 16 ∧ (60 : Nat) < 128 ∧
    Packet.setNote ⟨0, 0, 0, 0⟩ 5 60 0 = Packet.setNoteOff ⟨0, 0, 0, 0⟩ 5 60 64 :=
  ⟨by decide, by decide, setNote_zero_velocity_eq_setNoteOff ⟨0, 0, 0, 0⟩ 5 60 (by decide) (by decide)⟩

end V2MIDI
